import Mathlib

/-!
Verification of the VasoVue blood-pressure backend (`Public/app.py`).

Numbers are modelled as rationals, JSON request bodies as structures with
optional fields, and each HTTP handler as a pure function from a request
value to a response value.
-/

/-- A JSON body sent to `/api/predict`: an optional `signal` array, an
optional `emotion` string, and optional legacy `systolic` / `diastolic`
numbers. -/
structure PredictRequest where
  signal : Option (List ℚ)
  emotion : Option String
  systolic : Option ℚ
  diastolic : Option ℚ

/-- The JSON responses the two POST handlers can produce, each carrying its
HTTP status code: a prediction result body, an error body, or an
acknowledgment message body. -/
inductive Response where
  | predJson (systolic diastolic : ℚ) (category : String) (success : Bool) (status : Nat)
  | errJson (error : String) (status : Nat)
  | msgJson (success : Bool) (message : String) (status : Nat)
deriving DecidableEq

/-- `determine_bp_category` from `app.py`: the if/elif chain classifying a
systolic/diastolic pair. -/
def determine_bp_category (systolic diastolic : ℚ) : String :=
  if systolic < 120 ∧ diastolic < 80 then "Normal"
  else if 120 ≤ systolic ∧ systolic < 130 ∧ diastolic < 80 then "Elevated"
  else if (130 ≤ systolic ∧ systolic < 140) ∨ (80 ≤ diastolic ∧ diastolic < 90) then
    "Hypertension Stage 1"
  else if 140 ≤ systolic ∨ 90 ≤ diastolic then "Hypertension Stage 2"
  else "Unknown"

/-- `mean_signal = sum(signal) / len(signal)` from the signal branch of
`predict`. -/
def mean_signal (signal : List ℚ) : ℚ := signal.sum / (signal.length : ℚ)

/-- `systolic = min(160, max(90, 120 + (mean_signal - 128) * 0.3))` from the
signal branch of `predict`. -/
def sig_systolic (signal : List ℚ) : ℚ :=
  min 160 (max 90 (120 + (mean_signal signal - 128) * (3 / 10)))

/-- `diastolic = min(100, max(60, 80 + (mean_signal - 128) * 0.2))` from the
signal branch of `predict`. -/
def sig_diastolic (signal : List ℚ) : ℚ :=
  min 100 (max 60 (80 + (mean_signal signal - 128) * (2 / 10)))

/-- Round-half-to-even to an integer, as Python's builtin `round` does. -/
def roundHalfEven (x : ℚ) : ℤ :=
  if x - ⌊x⌋ < 1 / 2 then ⌊x⌋
  else if 1 / 2 < x - ⌊x⌋ then ⌊x⌋ + 1
  else if ⌊x⌋ % 2 = 0 then ⌊x⌋ else ⌊x⌋ + 1

/-- Python's `round(x, 1)`: round to one decimal place. -/
def round1 (x : ℚ) : ℚ := (roundHalfEven (x * 10) : ℚ) / 10

/-- The `/api/predict` handler `predict` from `app.py`.  If the body has a
`signal` key it takes the rPPG branch (length check, mean, clamped linear
formulas); otherwise the legacy branch requires both `systolic` and
`diastolic`.  Either successful branch classifies the pair and returns the
rounded values with `success: True` at status 200. -/
def predict (data : PredictRequest) : Response :=
  match data.signal with
  | some signal =>
      let _emotion := data.emotion.getD "neutral"
      if 100 ≤ signal.length then
        Response.predJson (round1 (sig_systolic signal)) (round1 (sig_diastolic signal))
          (determine_bp_category (sig_systolic signal) (sig_diastolic signal)) true 200
      else
        Response.errJson "Insufficient signal data" 400
  | none =>
      match data.systolic, data.diastolic with
      | some systolic, some diastolic =>
          Response.predJson (round1 systolic) (round1 diastolic)
            (determine_bp_category systolic diastolic) true 200
      | _, _ => Response.errJson "Invalid input" 400

/-- A JSON body sent to `/api/export`: an optional `samples` array of opaque
records. -/
structure ExportRequest (α : Type) where
  samples : Option (List α)

/-- The `/api/export` handler `export_session` from `app.py`: the first
component is the sample count it logs (`len(data.get('samples', []))`), the
second the unconditional acknowledgment response. -/
def export_session {α : Type} (data : ExportRequest α) : Nat × Response :=
  ((data.samples.getD []).length,
   Response.msgJson true "Session data exported successfully" 200)

/-- `clamp(v, lo, hi)` as used by the spec to describe the signal branch. -/
def clamp (v lo hi : ℚ) : ℚ := min hi (max lo v)

/-- The spec's category table, transcribed from its own words: five rules
evaluated in order, first match winning.  Compared against
`determine_bp_category` for the refinement claim. -/
def spec_bp_category (systolic diastolic : ℚ) : String :=
  if systolic < 120 ∧ diastolic < 80 then "Normal"
  else if 120 ≤ systolic ∧ systolic < 130 ∧ diastolic < 80 then "Elevated"
  else if (130 ≤ systolic ∧ systolic < 140) ∨ (80 ≤ diastolic ∧ diastolic < 90) then
    "Hypertension Stage 1"
  else if 140 ≤ systolic ∨ 90 ≤ diastolic then "Hypertension Stage 2"
  else "Unknown"

/-- C2: for every pair of numeric inputs, `determine_bp_category` computes the
category by the spec's five rules evaluated in order with the first match
winning. -/
theorem determine_bp_category_follows_spec (s d : ℚ) :
    determine_bp_category s d = spec_bp_category s d := rfl

/-- C6: the four legacy-format test inputs classify as Normal, Elevated,
Hypertension Stage 1 and Hypertension Stage 2 respectively. -/
theorem predict_legacy_examples :
    predict ⟨none, none, some 118, some 75⟩ = Response.predJson 118 75 "Normal" true 200 ∧
    predict ⟨none, none, some 125, some 78⟩ = Response.predJson 125 78 "Elevated" true 200 ∧
    predict ⟨none, none, some 135, some 85⟩ =
      Response.predJson 135 85 "Hypertension Stage 1" true 200 ∧
    predict ⟨none, none, some 145, some 95⟩ =
      Response.predJson 145 95 "Hypertension Stage 2" true 200 := by
  refine ⟨?_, ?_, ?_, ?_⟩ <;>
    norm_num [predict, round1, roundHalfEven, determine_bp_category]

/-- C1 counterexample: a signal of 100 samples all equal to 128 has mean 128,
and the response carries systolic 120.0 and diastolic 80.0 but category
`Hypertension Stage 1`, not `Elevated` (diastolic = 80 fails `diastolic < 80`
and instead satisfies `80 ≤ diastolic < 90`). -/
theorem predict_mean128_not_elevated :
    predict ⟨some (List.replicate 100 (128 : ℚ)), none, none, none⟩ =
      Response.predJson 120 80 "Hypertension Stage 1" true 200 ∧
    predict ⟨some (List.replicate 100 (128 : ℚ)), none, none, none⟩ ≠
      Response.predJson 120 80 "Elevated" true 200 := by
  have hm : mean_signal (List.replicate 100 (128 : ℚ)) = 128 := by
    simp [mean_signal, List.sum_replicate]
    norm_num
  have hsys : sig_systolic (List.replicate 100 (128 : ℚ)) = 120 := by
    norm_num [sig_systolic, hm, min_def, max_def]
  have hdia : sig_diastolic (List.replicate 100 (128 : ℚ)) = 80 := by
    norm_num [sig_diastolic, hm, min_def, max_def]
  constructor <;>
    norm_num [predict, hsys, hdia, round1, roundHalfEven, determine_bp_category]
  decide

/-- C1 (amended): for every signal-based prediction request whose signal has
length at least 100 and whose arithmetic mean equals 128, the response has
systolic = 120.0, diastolic = 80.0, and category = `Hypertension Stage 1`. -/
theorem predict_mean128_stage1 (signal : List ℚ) (e : Option String) (s d : Option ℚ)
    (h : 100 ≤ signal.length) (hm : mean_signal signal = 128) :
    predict ⟨some signal, e, s, d⟩ =
      Response.predJson 120 80 "Hypertension Stage 1" true 200 := by
  have hsys : sig_systolic signal = 120 := by
    norm_num [sig_systolic, hm, min_def, max_def]
  have hdia : sig_diastolic signal = 80 := by
    norm_num [sig_diastolic, hm, min_def, max_def]
  norm_num [predict, h, hsys, hdia, round1, roundHalfEven, determine_bp_category]

/-- Witness for C1 (amended) at the all-128 signal of length 100. -/
theorem predict_mean128_stage1_witness :
    100 ≤ (List.replicate 100 (128 : ℚ)).length ∧
    predict ⟨some (List.replicate 100 (128 : ℚ)), none, none, none⟩ =
      Response.predJson 120 80 "Hypertension Stage 1" true 200 :=
  ⟨by simp, predict_mean128_stage1 (List.replicate 100 128) none none none (by simp)
    (by simp [mean_signal, List.sum_replicate]; norm_num)⟩

/-- C3: for every signal-based request with length at least 100, the computed
systolic is `clamp(120 + (mean - 128) * 0.3, 90, 160)` and the computed
diastolic is `clamp(80 + (mean - 128) * 0.2, 60, 100)`; both always lie in
their clamp ranges, and the response is built from them. -/
theorem predict_signal_clamped (signal : List ℚ) (e : Option String) (s d : Option ℚ)
    (h : 100 ≤ signal.length) :
    predict ⟨some signal, e, s, d⟩ =
      Response.predJson (round1 (sig_systolic signal)) (round1 (sig_diastolic signal))
        (determine_bp_category (sig_systolic signal) (sig_diastolic signal)) true 200 ∧
    sig_systolic signal = clamp (120 + (mean_signal signal - 128) * (3 / 10)) 90 160 ∧
    sig_diastolic signal = clamp (80 + (mean_signal signal - 128) * (2 / 10)) 60 100 ∧
    90 ≤ sig_systolic signal ∧ sig_systolic signal ≤ 160 ∧
    60 ≤ sig_diastolic signal ∧ sig_diastolic signal ≤ 100 := by
  refine ⟨by simp [predict, h], rfl, rfl, ?_, ?_, ?_, ?_⟩
  · exact le_min (by norm_num) (le_max_left _ _)
  · exact min_le_left _ _
  · exact le_min (by norm_num) (le_max_left _ _)
  · exact min_le_left _ _

/-- Witness for C3 at the all-130 signal of length 100. -/
theorem predict_signal_clamped_witness :
    predict ⟨some (List.replicate 100 (130 : ℚ)), none, none, none⟩ =
      Response.predJson (round1 (sig_systolic (List.replicate 100 (130 : ℚ))))
        (round1 (sig_diastolic (List.replicate 100 (130 : ℚ))))
        (determine_bp_category (sig_systolic (List.replicate 100 (130 : ℚ)))
          (sig_diastolic (List.replicate 100 (130 : ℚ)))) true 200 ∧
    sig_systolic (List.replicate 100 (130 : ℚ)) =
      clamp (120 + (mean_signal (List.replicate 100 (130 : ℚ)) - 128) * (3 / 10)) 90 160 ∧
    sig_diastolic (List.replicate 100 (130 : ℚ)) =
      clamp (80 + (mean_signal (List.replicate 100 (130 : ℚ)) - 128) * (2 / 10)) 60 100 ∧
    90 ≤ sig_systolic (List.replicate 100 (130 : ℚ)) ∧
    sig_systolic (List.replicate 100 (130 : ℚ)) ≤ 160 ∧
    60 ≤ sig_diastolic (List.replicate 100 (130 : ℚ)) ∧
    sig_diastolic (List.replicate 100 (130 : ℚ)) ≤ 100 :=
  predict_signal_clamped (List.replicate 100 130) none none none (by simp)

/-- C4: every signal-based request whose signal has fewer than 100 elements
yields HTTP 400 with error `Insufficient signal data`. -/
theorem predict_short_signal (signal : List ℚ) (e : Option String) (s d : Option ℚ)
    (h : signal.length < 100) :
    predict ⟨some signal, e, s, d⟩ = Response.errJson "Insufficient signal data" 400 := by
  have h' : ¬ 100 ≤ signal.length := Nat.not_le.mpr h
  simp [predict, h']

/-- Witness for C4 at the empty signal. -/
theorem predict_short_signal_witness :
    ([] : List ℚ).length < 100 ∧
    predict ⟨some ([] : List ℚ), none, none, none⟩ =
      Response.errJson "Insufficient signal data" 400 :=
  ⟨by simp, predict_short_signal [] none none none (by simp)⟩

/-- C5: every legacy-format request (no signal field) missing either the
systolic field or the diastolic field yields HTTP 400 with error
`Invalid input`. -/
theorem predict_legacy_missing (e : Option String) (s d : Option ℚ)
    (h : s = none ∨ d = none) :
    predict ⟨none, e, s, d⟩ = Response.errJson "Invalid input" 400 := by
  rcases h with h | h
  · subst h
    cases d <;> rfl
  · subst h
    cases s <;> rfl

/-- Witness for C5 at a request with both fields absent. -/
theorem predict_legacy_missing_witness :
    ((none : Option ℚ) = none ∨ (none : Option ℚ) = none) ∧
    predict ⟨none, none, none, none⟩ = Response.errJson "Invalid input" 400 :=
  ⟨Or.inl rfl, predict_legacy_missing none none none (Or.inl rfl)⟩

/-- C7: every prediction request passing its branch's validation (a signal of
length at least 100, or a legacy request with both fields present) returns
HTTP 200 with systolic and diastolic rounded to one decimal place, the
classified category, and success true. -/
theorem predict_success_shape (req : PredictRequest)
    (h : (∃ sig, req.signal = some sig ∧ 100 ≤ sig.length) ∨
      (req.signal = none ∧ req.systolic ≠ none ∧ req.diastolic ≠ none)) :
    ∃ s d : ℚ, predict req =
      Response.predJson (round1 s) (round1 d) (determine_bp_category s d) true 200 := by
  obtain ⟨sig, hsig, hlen⟩ | ⟨hnone, hs, hd⟩ := h
  · refine ⟨sig_systolic sig, sig_diastolic sig, ?_⟩
    unfold predict
    rw [hsig]
    simp [hlen]
  · rcases hs2 : req.systolic with _ | a
    · exact absurd hs2 hs
    rcases hd2 : req.diastolic with _ | b
    · exact absurd hd2 hd
    refine ⟨a, b, ?_⟩
    unfold predict
    rw [hnone, hs2, hd2]

/-- Witness for C7 at a legacy request with both fields present. -/
theorem predict_success_shape_witness :
    ∃ s d : ℚ, predict ⟨none, some "calm", some 118, some 76⟩ =
      Response.predJson (round1 s) (round1 d) (determine_bp_category s d) true 200 :=
  predict_success_shape ⟨none, some "calm", some 118, some 76⟩
    (Or.inr ⟨rfl, by simp, by simp⟩)

/-- C8: every export request gets HTTP 200 with success true and message
`Session data exported successfully`, whatever the samples hold; the logged
sample count treats an absent samples field as a zero-length sequence. -/
theorem export_session_always_succeeds {α : Type} (data : ExportRequest α) :
    (export_session data).2 =
      Response.msgJson true "Session data exported successfully" 200 ∧
    (export_session data).1 =
      (match data.samples with | none => 0 | some l => l.length) := by
  obtain ⟨os⟩ := data
  exact ⟨rfl, by cases os <;> rfl⟩

/-- C9: for systolic in [90, 160] and diastolic in [60, 100] — the ranges the
signal branch's clamps produce — `determine_bp_category` never returns
`Unknown`. -/
theorem determine_bp_category_never_unknown (s d : ℚ)
    (h90 : 90 ≤ s) (h160 : s ≤ 160) (h60 : 60 ≤ d) (h100 : d ≤ 100) :
    determine_bp_category s d ≠ "Unknown" := by
  unfold determine_bp_category
  split_ifs with h1 h2 h3 h4
  · decide
  · decide
  · decide
  · decide
  exfalso
  push_neg at h1 h2 h3 h4
  obtain ⟨hs140, hd90⟩ := h4
  obtain ⟨h3a, h3b⟩ := h3
  have hs130 : s < 130 := by
    by_contra hc
    push_neg at hc
    linarith [h3a hc]
  have hd80 : d < 80 := by
    by_contra hc
    push_neg at hc
    linarith [h3b hc]
  have hs120 : s < 120 := by
    by_contra hc
    push_neg at hc
    linarith [h2 hc hs130]
  linarith [h1 hs120]

/-- Witness for C9 at systolic 120, diastolic 80. -/
theorem determine_bp_category_never_unknown_witness :
    determine_bp_category 120 80 ≠ "Unknown" :=
  determine_bp_category_never_unknown 120 80 (by norm_num) (by norm_num)
    (by norm_num) (by norm_num)

/-- C10: two signal-based requests with the same signal, systolic and
diastolic fields that differ only in the emotion field (including its
absence) get identical responses: emotion never affects the output. -/
theorem predict_ignores_emotion (sig : List ℚ) (e1 e2 : Option String)
    (s d : Option ℚ) :
    predict ⟨some sig, e1, s, d⟩ = predict ⟨some sig, e2, s, d⟩ := rfl
